import Mathlib

/-!
Verification of the pulse-accounting and telemetry-reporting engine of the
OXRS flow-sensor firmware (src/src/main.cpp), shallowly embedded in Lean.

Machine integers are modelled as mathematical integers with explicit
reduction modulo 2^32 where the C code performs 32-bit arithmetic:
`uint32_t` values are `Nat` (kept below 2^32 by the operations), the C
`int` is `Int` (reduced to the signed 32-bit range where a conversion
happens in the code).
-/

/-- 2^32, the modulus of the firmware's `uint32_t` arithmetic. -/
def U32MOD : Nat := 4294967296

/-- 2^31, the first value outside the nonnegative range of a 32-bit `int`. -/
def I32HALF : Nat := 2147483648

/-- C conversion of a signed value to `uint32_t`: reduction modulo 2^32. -/
def toUInt32 (v : Int) : Nat := (v % (U32MOD : Int)).toNat

/-- C cast of a `uint32_t` value to `int` (two's complement reinterpretation,
as performed by `(int)(pulseCount * 1000 / kFactor)` in `loop()`). -/
def toInt32 (n : Nat) : Int :=
  if n % U32MOD < I32HALF then ((n % U32MOD : Nat) : Int)
  else ((n % U32MOD : Nat) : Int) - (U32MOD : Int)

/-- `uint32_t` subtraction `a - b` (wraparound-safe), as in
`millis() - lastTelemetryMs`. -/
def sub32 (a b : Nat) : Nat := (a % U32MOD + (U32MOD - b % U32MOD)) % U32MOD

/-- `#define DEFAULT_TELEMETRY_INTERVAL_MS 1000` -/
def DEFAULT_TELEMETRY_INTERVAL_MS : Nat := 1000

/-- `#define TELEMETRY_INTERVAL_MS_MAX 60000` -/
def TELEMETRY_INTERVAL_MS_MAX : Int := 60000

/-- `#define DEFAULT_K_FACTOR 49` -/
def DEFAULT_K_FACTOR : Int := 49

/-- `#define K_FACTOR_MAX 1000` -/
def K_FACTOR_MAX : Int := 1000

/-- The firmware's global mutable state relevant to the telemetry engine:
`uint32_t telemetryIntervalMs`, `int kFactor`, `uint32_t pulseCount`,
`uint32_t lastTelemetryMs`, `uint32_t elapsedTelemetryMs`
(main.cpp lines 81-87). -/
structure FlowState where
  telemetryIntervalMs : Nat
  kFactor : Int
  pulseCount : Nat
  lastTelemetryMs : Nat
  elapsedTelemetryMs : Nat
deriving Repr, DecidableEq

/-- The globals' initial values (main.cpp lines 81-87). -/
def initialState : FlowState :=
  { telemetryIntervalMs := DEFAULT_TELEMETRY_INTERVAL_MS
    kFactor := DEFAULT_K_FACTOR
    pulseCount := 0
    lastTelemetryMs := 0
    elapsedTelemetryMs := 0 }

/-- `void IRAM_ATTR isr() { pulseCount++; }` — the interrupt handler;
`pulseCount` is `uint32_t`, so the increment wraps modulo 2^32. -/
def isr (s : FlowState) : FlowState :=
  { s with pulseCount := (s.pulseCount + 1) % U32MOD }

/-- `n` consecutive invocations of `isr` (n sensor edges). -/
def edges : Nat → FlowState → FlowState
  | 0, s => s
  | n + 1, s => edges n (isr s)

/-- An inbound configuration message: a JSON object with optional integer
keys `telemetryIntervalMs` and `kFactor`.  A value of `some v` models a
present key whose `.as<int>()` conversion yields `v`. -/
structure ConfigPayload where
  telemetryIntervalMs : Option Int
  kFactor : Option Int
deriving Repr, DecidableEq

/-- `void _mqttConfig(JsonVariant json)` (main.cpp lines 318-329): for each
present key, store `min(value, MAX)`; the interval is stored into a
`uint32_t` (conversion modulo 2^32), the k-factor into a signed `int`. -/
def mqttConfig (s : FlowState) (json : ConfigPayload) : FlowState :=
  let s1 := match json.telemetryIntervalMs with
    | some v => { s with telemetryIntervalMs := toUInt32 (min v TELEMETRY_INTERVAL_MS_MAX) }
    | none => s
  match json.kFactor with
    | some v => { s1 with kFactor := min v K_FACTOR_MAX }
    | none => s1

/-- The telemetry record published on a reporting tick
(`json["elapsedMs"]`, `json["pulseCount"]`, `json["volumeMls"]`,
main.cpp lines 537-541).  `volumeMls` is assigned through an `(int)` cast,
so it is a signed value. -/
structure TelemetryRecord where
  elapsedMs : Nat
  pulseCount : Nat
  volumeMls : Int
deriving Repr, DecidableEq

/-- `(int)(pulseCount * 1000 / kFactor)` (main.cpp line 540):
`pulseCount` is `uint32_t` and `1000` an `int`, so the multiplication is
32-bit unsigned and wraps; `kFactor` is an `int` converted to `uint32_t`
by the usual arithmetic conversions, and the division is unsigned; the
result is cast back to `int`.  (For `kFactor ≡ 0 (mod 2^32)` the C code
divides by zero — undefined behaviour; the model's value there is not
meaningful.) -/
def volumeMls (pulseCount : Nat) (kFactor : Int) : Int :=
  toInt32 ((pulseCount * 1000 % U32MOD) / toUInt32 kFactor)

/-- The telemetry portion of `void loop()` (main.cpp lines 532-546).
`now` is the value of the first `millis()` call (line 533), `now2` that of
the second (line 544).  `deliveryOk` is the transport's success indicator
for `_mqtt.publishTelemetry(json)`; the source discards it — the reset of
`lastTelemetryMs` and `pulseCount` is unconditional once the interval has
expired.  Returns the new state and the published record, if any. -/
def loop (s : FlowState) (now now2 : Nat) (_deliveryOk : Bool) : FlowState × Option TelemetryRecord :=
  let elapsed := sub32 now s.lastTelemetryMs
  if s.telemetryIntervalMs ≤ elapsed then
    let record : TelemetryRecord :=
      { elapsedMs := elapsed
        pulseCount := s.pulseCount
        volumeMls := volumeMls s.pulseCount s.kFactor }
    ({ s with elapsedTelemetryMs := elapsed
              lastTelemetryMs := now2 % U32MOD
              pulseCount := 0 }, some record)
  else
    ({ s with elapsedTelemetryMs := elapsed }, none)

/-!
Interleaving model for the pulse counter (claim C3).  The interrupt context
only ever runs `isr` (`pulseCount++`); the cooperative loop's consume is the
pair read (line 539, `json["pulseCount"] = pulseCount`) … reset (line 545,
`pulseCount = 0`), two separate steps with an arbitrary number of interrupt
edges in between.
-/

/-- An event in an execution history of the pulse counter: a sensor edge
(interrupt context), the loop's read of `pulseCount`, or the loop's reset. -/
inductive FlowEvent where
  | edge
  | readCount
  | resetCount
deriving Repr, DecidableEq

/-- One event acting on (current `pulseCount`, value captured by the read,
if it has happened). -/
def stepEvent (st : Nat × Option Nat) : FlowEvent → Nat × Option Nat
  | .edge => ((st.1 + 1) % U32MOD, st.2)
  | .readCount => (st.1, some st.1)
  | .resetCount => (0, st.2)

/-- Run a history of events from `pulseCount = 0`, nothing read yet. -/
def runEvents (es : List FlowEvent) : Nat × Option Nat :=
  es.foldl stepEvent (0, none)

/-- `n` consecutive edge events. -/
def edgeTrace (n : Nat) : List FlowEvent := List.replicate n .edge

/-- The histories the firmware can produce around one reporting tick:
`a` edges, then the loop's read, `b` edges (arriving while the loop
publishes), then the loop's reset, then `c` further edges. -/
def interleaving (a b c : Nat) : List FlowEvent :=
  edgeTrace a ++ [.readCount] ++ edgeTrace b ++ [.resetCount] ++ edgeTrace c

/-- The pulse count the tick reports in history `interleaving a b c`. -/
def reported (a b c : Nat) : Nat := (runEvents (interleaving a b c)).2.getD 0

/-- The `pulseCount` observed after the whole history `interleaving a b c`. -/
def postCount (a b c : Nat) : Nat := (runEvents (interleaving a b c)).1

/-- A state in which the 32-bit pulse counter is saturated. -/
def maxCountState : FlowState := { initialState with pulseCount := 4294967295 }

/-!
Theorems settling the claims.
-/

/-- C8: starting from the default state (interval 1000 ms, k-factor 49,
pulseCount 0, lastTelemetryMs 0), after 49 edges the tick at time 1000 with
delivery succeeding publishes `{elapsedMs:1000, pulseCount:49, volumeMls:1000}`,
resets PulseCount to 0, and sets lastTelemetryMs to 1000. -/
theorem C8_success_scenario :
    initialState.telemetryIntervalMs = 1000 ∧ initialState.kFactor = 49 ∧
    initialState.pulseCount = 0 ∧ initialState.lastTelemetryMs = 0 ∧
    (edges 49 initialState).pulseCount = 49 ∧
    loop (edges 49 initialState) 1000 1000 true =
      ({ initialState with elapsedTelemetryMs := 1000, lastTelemetryMs := 1000 },
       some { elapsedMs := 1000, pulseCount := 49, volumeMls := 1000 }) := by
  decide

/-- C4: the claim "the calibration factor is at least 1 in every reachable
configuration state" fails on the code: the inbound config `{kFactor: 0}` is
stored unclamped (`min(0, K_FACTOR_MAX) = 0`), reaching a state whose
k-factor is 0, for which the volume division on the next expired tick
divides by zero. -/
theorem C4_kfactor_zero_reachable :
    (mqttConfig initialState { telemetryIntervalMs := none, kFactor := some 0 }).kFactor = 0 ∧
    ¬ (1 ≤ (mqttConfig initialState { telemetryIntervalMs := none, kFactor := some 0 }).kFactor) := by
  decide

/-- C5 counterexample: applying `{telemetryIntervalMs: -5}` stores 4294967291
into the unsigned field, not `min(-5, 60000) = -5`, so "the stored value
becomes min(providedValue, fieldMaximum)" fails for negative inputs to the
interval field. -/
theorem C5_counterexample :
    (mqttConfig initialState { telemetryIntervalMs := some (-5), kFactor := none }).telemetryIntervalMs
      = 4294967291 ∧
    min (-5 : Int) TELEMETRY_INTERVAL_MS_MAX = -5 ∧
    ¬ (((mqttConfig initialState { telemetryIntervalMs := some (-5), kFactor := none }).telemetryIntervalMs : Int)
        = min (-5 : Int) TELEMETRY_INTERVAL_MS_MAX) := by
  decide

/-- C5 (amended): `{telemetryIntervalMs: 999999}` stores 60000,
`{kFactor: 5000}` stores 1000, `{}` leaves the state unchanged; in general
a present k-factor is stored as `min(v, 1000)` exactly, and a present
interval is stored as `min(v, 60000)` reduced modulo 2^32 into the unsigned
field, which equals `min(v, 60000)` whenever the provided value is
nonnegative; absent fields are unchanged. -/
theorem C5_clamp_correctness (s : FlowState) (vI vK : Int) (hvI : 0 ≤ vI) :
    (mqttConfig s { telemetryIntervalMs := some 999999, kFactor := none }).telemetryIntervalMs = 60000 ∧
    (mqttConfig s { telemetryIntervalMs := none, kFactor := some 5000 }).kFactor = 1000 ∧
    mqttConfig s { telemetryIntervalMs := none, kFactor := none } = s ∧
    (mqttConfig s { telemetryIntervalMs := none, kFactor := some vK }).kFactor = min vK K_FACTOR_MAX ∧
    (mqttConfig s { telemetryIntervalMs := none, kFactor := some vK }).telemetryIntervalMs = s.telemetryIntervalMs ∧
    (mqttConfig s { telemetryIntervalMs := some vI, kFactor := none }).kFactor = s.kFactor ∧
    ((mqttConfig s { telemetryIntervalMs := some vI, kFactor := none }).telemetryIntervalMs : Int)
      = min vI TELEMETRY_INTERVAL_MS_MAX := by
  refine ⟨?_, ?_, ?_, ?_, ?_, ?_, ?_⟩ <;>
    simp [mqttConfig, toUInt32, TELEMETRY_INTERVAL_MS_MAX, K_FACTOR_MAX, U32MOD]
  all_goals omega

/-- C5 witness: the amended clamp theorem at a concrete state and inputs. -/
theorem C5_clamp_correctness_witness :
    (0 : Int) ≤ 7 ∧
    ((mqttConfig initialState { telemetryIntervalMs := some 999999, kFactor := none }).telemetryIntervalMs = 60000 ∧
     (mqttConfig initialState { telemetryIntervalMs := none, kFactor := some 5000 }).kFactor = 1000 ∧
     mqttConfig initialState { telemetryIntervalMs := none, kFactor := none } = initialState ∧
     (mqttConfig initialState { telemetryIntervalMs := none, kFactor := some (-9) }).kFactor = min (-9) K_FACTOR_MAX ∧
     (mqttConfig initialState { telemetryIntervalMs := none, kFactor := some (-9) }).telemetryIntervalMs = initialState.telemetryIntervalMs ∧
     (mqttConfig initialState { telemetryIntervalMs := some 7, kFactor := none }).kFactor = initialState.kFactor ∧
     ((mqttConfig initialState { telemetryIntervalMs := some 7, kFactor := none }).telemetryIntervalMs : Int)
       = min 7 TELEMETRY_INTERVAL_MS_MAX) :=
  ⟨by decide, C5_clamp_correctness initialState 7 (-9) (by decide)⟩

/-- C6: a tick whose elapsed time (uint32 `now - lastTelemetryMs`) is below
the telemetry interval leaves PulseCount and lastTelemetryMs unchanged and
publishes nothing. -/
theorem C6_no_op_tick (s : FlowState) (now now2 : Nat) (ok : Bool)
    (h : sub32 now s.lastTelemetryMs < s.telemetryIntervalMs) :
    (loop s now now2 ok).1.pulseCount = s.pulseCount ∧
    (loop s now now2 ok).1.lastTelemetryMs = s.lastTelemetryMs ∧
    (loop s now now2 ok).2 = none := by
  simp only [loop]
  rw [if_neg (by omega)]
  exact ⟨rfl, rfl, rfl⟩

/-- C6 witness: the no-op tick theorem at time 5 from the default state. -/
theorem C6_no_op_tick_witness :
    sub32 5 initialState.lastTelemetryMs < initialState.telemetryIntervalMs ∧
    ((loop initialState 5 5 true).1.pulseCount = initialState.pulseCount ∧
     (loop initialState 5 5 true).1.lastTelemetryMs = initialState.lastTelemetryMs ∧
     (loop initialState 5 5 true).2 = none) :=
  ⟨by decide, C6_no_op_tick initialState 5 5 true (by decide)⟩

/-- C7: inbound configuration values below 1 are stored without any lower
clamp — a k-factor below 1 is stored as the (possibly negative or zero)
value itself, and an interval below 1 is stored as the value converted to
`uint32_t` with no `max(1, ·)` applied; no input is rejected. -/
theorem C7_lower_bound_passthrough (s : FlowState) (v : Int) (hv : v < 1) :
    (mqttConfig s { telemetryIntervalMs := none, kFactor := some v }).kFactor = v ∧
    (mqttConfig s { telemetryIntervalMs := some v, kFactor := none }).telemetryIntervalMs
      = toUInt32 v := by
  constructor
  · simp only [mqttConfig]
    refine min_eq_left (by simp [K_FACTOR_MAX]; omega)
  · simp only [mqttConfig]
    have : min v TELEMETRY_INTERVAL_MS_MAX = v :=
      min_eq_left (by simp [TELEMETRY_INTERVAL_MS_MAX]; omega)
    rw [this]

/-- C7 witness: the pass-through theorem at the value 0 in the default state. -/
theorem C7_lower_bound_passthrough_witness :
    (0 : Int) < 1 ∧
    ((mqttConfig initialState { telemetryIntervalMs := none, kFactor := some 0 }).kFactor = 0 ∧
     (mqttConfig initialState { telemetryIntervalMs := some 0, kFactor := none }).telemetryIntervalMs
       = toUInt32 0) :=
  ⟨by decide, C7_lower_bound_passthrough initialState 0 (by decide)⟩

/-- C9 counterexample: at `pulseCount = 2^32 - 1` the `uint32_t` increment in
`isr` wraps to 0 — the counter is not incremented by exactly one and is not
monotone there. -/
theorem C9_counterexample :
    maxCountState.pulseCount = 4294967295 ∧
    (isr maxCountState).pulseCount = 0 ∧
    ¬ ((isr maxCountState).pulseCount = maxCountState.pulseCount + 1) ∧
    ¬ (maxCountState.pulseCount ≤ (isr maxCountState).pulseCount) := by
  decide

/-- C9 (amended): every `isr` invocation increments PulseCount by one modulo
2^32 and touches nothing else (it cannot fail); the increment is by exactly
one — and the counter strictly increases — whenever `pulseCount + 1 < 2^32`,
the sole exception being the wrap at the `uint32_t` maximum. -/
theorem C9_isr_increment (s : FlowState) (h : s.pulseCount + 1 < U32MOD) :
    (isr s).pulseCount = s.pulseCount + 1 ∧
    s.pulseCount < (isr s).pulseCount ∧
    (isr s).telemetryIntervalMs = s.telemetryIntervalMs ∧
    (isr s).kFactor = s.kFactor ∧
    (isr s).lastTelemetryMs = s.lastTelemetryMs ∧
    (isr s).elapsedTelemetryMs = s.elapsedTelemetryMs := by
  have hinc : (isr s).pulseCount = s.pulseCount + 1 := by
    simp only [U32MOD] at h
    simp only [isr, U32MOD]
    omega
  exact ⟨hinc, by omega, rfl, rfl, rfl, rfl⟩

/-- C9 witness: the increment theorem at the default state. -/
theorem C9_isr_increment_witness :
    initialState.pulseCount + 1 < U32MOD ∧
    ((isr initialState).pulseCount = initialState.pulseCount + 1 ∧
     initialState.pulseCount < (isr initialState).pulseCount ∧
     (isr initialState).telemetryIntervalMs = initialState.telemetryIntervalMs ∧
     (isr initialState).kFactor = initialState.kFactor ∧
     (isr initialState).lastTelemetryMs = initialState.lastTelemetryMs ∧
     (isr initialState).elapsedTelemetryMs = initialState.elapsedTelemetryMs) :=
  ⟨by decide, C9_isr_increment initialState (by decide)⟩

/-- C1 counterexample: from the default state with 49 pulses counted, the
tick at time 1000 with delivery FAILING still resets `pulseCount` to 0 and
advances `lastTelemetryMs` to 1000 — the source discards the transport
result, so neither value is preserved across a failed delivery. -/
theorem C1_counterexample :
    (edges 49 initialState).pulseCount = 49 ∧
    (edges 49 initialState).lastTelemetryMs = 0 ∧
    (loop (edges 49 initialState) 1000 1000 false).1.pulseCount = 0 ∧
    (loop (edges 49 initialState) 1000 1000 false).1.lastTelemetryMs = 1000 := by
  decide

/-- C1 (amended): on every tick in which the telemetry interval has expired,
the pulse counter is reset to zero and `lastTelemetryMs` is advanced to the
current time unconditionally — the outcome of the delivery is ignored, so
pulses counted before a failed delivery are lost rather than carried into
the next report. -/
theorem C1_unconditional_reset (s : FlowState) (now now2 : Nat) (ok : Bool)
    (h : s.telemetryIntervalMs ≤ sub32 now s.lastTelemetryMs) :
    (loop s now now2 ok).1.pulseCount = 0 ∧
    (loop s now now2 ok).1.lastTelemetryMs = now2 % U32MOD ∧
    loop s now now2 true = loop s now now2 false := by
  refine ⟨?_, ?_, rfl⟩ <;>
    simp [loop, if_pos h]

/-- C1 witness: the unconditional-reset theorem at the default state, time
1000, delivery failing. -/
theorem C1_unconditional_reset_witness :
    initialState.telemetryIntervalMs ≤ sub32 1000 initialState.lastTelemetryMs ∧
    ((loop initialState 1000 1000 false).1.pulseCount = 0 ∧
     (loop initialState 1000 1000 false).1.lastTelemetryMs = 1000 % U32MOD ∧
     loop initialState 1000 1000 true = loop initialState 1000 1000 false) :=
  ⟨by decide, C1_unconditional_reset initialState 1000 1000 false (by decide)⟩

/-- C2 counterexample: at `pulseCount = 2^32 - 1` with the default k-factor
49, the 32-bit multiplication `pulseCount * 1000` overflows, and the tick
publishes `volumeMls = 87652373` instead of the exact
`floor(4294967295 * 1000 / 49) = 87652393775`. -/
theorem C2_counterexample :
    ¬ (maxCountState.pulseCount * 1000 < U32MOD) ∧
    ((loop maxCountState 1000 1000 true).2.map TelemetryRecord.volumeMls) = some 87652373 ∧
    (maxCountState.pulseCount * 1000 : Nat) / maxCountState.kFactor.toNat = 87652393775 ∧
    ¬ (((loop maxCountState 1000 1000 true).2.map TelemetryRecord.volumeMls)
        = some ((maxCountState.pulseCount * 1000 / maxCountState.kFactor.toNat : Nat) : Int)) := by
  decide

/-- C2 (amended): on a reporting tick the published `volumeMls` equals
`floor(pulseCount * 1000 / calibrationFactor)` computed exactly, provided
`pulseCount * 1000 < 2^32` (no overflow of the 32-bit unsigned intermediate)
and the quotient is below 2^31 (so the final `(int)` cast preserves it), for
any calibration factor in [1, 1000]; for larger pulse counts the
intermediate product wraps modulo 2^32. -/
theorem C2_conversion (s : FlowState) (now now2 : Nat) (ok : Bool)
    (h1 : s.telemetryIntervalMs ≤ sub32 now s.lastTelemetryMs)
    (h2 : s.pulseCount * 1000 < U32MOD)
    (h3 : 1 ≤ s.kFactor) (h4 : s.kFactor ≤ K_FACTOR_MAX)
    (h5 : s.pulseCount * 1000 / s.kFactor.toNat < I32HALF) :
    ((loop s now now2 ok).2.map TelemetryRecord.volumeMls)
      = some ((s.pulseCount * 1000 / s.kFactor.toNat : Nat) : Int) := by
  have hv : volumeMls s.pulseCount s.kFactor
      = ((s.pulseCount * 1000 / s.kFactor.toNat : Nat) : Int) := by
    have h5' : s.pulseCount * 1000 / s.kFactor.toNat < 2147483648 := by
      simp only [I32HALF] at h5
      exact h5
    have h2' : s.pulseCount * 1000 < 4294967296 := by
      simp only [U32MOD] at h2
      exact h2
    have hk : toUInt32 s.kFactor = s.kFactor.toNat := by
      simp only [K_FACTOR_MAX] at h4
      simp only [toUInt32, U32MOD]
      omega
    simp only [volumeMls, hk, toInt32, U32MOD, I32HALF]
    rw [Nat.mod_eq_of_lt h2']
    rw [Nat.mod_eq_of_lt (by omega), if_pos (by omega)]
  simp [loop, if_pos h1, hv]

/-- C2 witness: the conversion theorem on the 49-pulse default-state tick,
whose exact volume is 1000 ml. -/
theorem C2_conversion_witness :
    (edges 49 initialState).telemetryIntervalMs ≤ sub32 1000 (edges 49 initialState).lastTelemetryMs ∧
    (edges 49 initialState).pulseCount * 1000 < U32MOD ∧
    1 ≤ (edges 49 initialState).kFactor ∧
    (edges 49 initialState).kFactor ≤ K_FACTOR_MAX ∧
    (edges 49 initialState).pulseCount * 1000 / (edges 49 initialState).kFactor.toNat < I32HALF ∧
    ((loop (edges 49 initialState) 1000 1000 true).2.map TelemetryRecord.volumeMls)
      = some (((edges 49 initialState).pulseCount * 1000 / (edges 49 initialState).kFactor.toNat : Nat) : Int) :=
  ⟨by decide, by decide, by decide, by decide, by decide,
   C2_conversion (edges 49 initialState) 1000 1000 true
     (by decide) (by decide) (by decide) (by decide) (by decide)⟩

/-- Folding a run of edge events adds their number to the counter modulo
2^32 and leaves the read register alone. -/
theorem foldl_edgeTrace (n : Nat) : ∀ (c : Nat) (r : Option Nat), c < U32MOD →
    List.foldl stepEvent (c, r) (edgeTrace n) = ((c + n) % U32MOD, r) := by
  induction n with
  | zero =>
    intro c r hc
    simp [edgeTrace, Nat.mod_eq_of_lt hc]
  | succ n ih =>
    intro c r hc
    have hstep : edgeTrace (n + 1) = .edge :: edgeTrace n := by
      simp [edgeTrace, List.replicate_succ]
    rw [hstep, List.foldl_cons]
    show List.foldl stepEvent ((c + 1) % U32MOD, r) (edgeTrace n) = _
    rw [ih ((c + 1) % U32MOD) r (Nat.mod_lt _ (by decide))]
    rw [Nat.mod_add_mod]
    rw [show c + 1 + n = c + (n + 1) from by omega]

/-- Evaluation of a full interleaved history: the read captures the count
of edges before it, the reset discards the edges of the window, and the
final counter holds the edges after the reset. -/
theorem runEvents_interleaving (a b c : Nat) :
    runEvents (interleaving a b c) = (c % U32MOD, some (a % U32MOD)) := by
  have h0 : (0 : Nat) < U32MOD := by decide
  simp only [runEvents, interleaving, List.foldl_append]
  rw [foldl_edgeTrace a 0 none h0]
  simp only [List.foldl_cons, List.foldl_nil, stepEvent, Nat.zero_add]
  rw [foldl_edgeTrace b (a % U32MOD) (some (a % U32MOD)) (Nat.mod_lt _ h0)]
  simp only [List.foldl_cons, List.foldl_nil, stepEvent]
  rw [foldl_edgeTrace c 0 (some (a % U32MOD)) h0]
  simp

/-- C3 counterexample: a single edge arriving between the loop's read of
`pulseCount` and its reset is lost — the value reported plus the count
observed after the reset is 0, not the 1 edge that occurred. -/
theorem C3_counterexample :
    reported 0 1 0 = 0 ∧ postCount 0 1 0 = 0 ∧
    ¬ (reported 0 1 0 + postCount 0 1 0 = 0 + 1 + 0) := by
  decide

/-- C3 (amended): for a history of `a` edges, the tick's read, `b` edges,
the tick's reset, and `c` edges (a + b + c = N edges in total), the value
reported is `a` and the post-reset count is `c`: their sum is N − b, so the
no-loss sum N holds exactly when no edge arrives in the read-to-reset
window; the `b` window edges are dropped. -/
theorem C3_window_loss (a b c : Nat) (ha : a < U32MOD) (hc : c < U32MOD) :
    reported a b c = a ∧ postCount a b c = c ∧
    reported a b c + postCount a b c + b = a + b + c := by
  have h := runEvents_interleaving a b c
  have hr : reported a b c = a := by
    simp [reported, h, Nat.mod_eq_of_lt ha]
  have hp : postCount a b c = c := by
    simp [postCount, h, Nat.mod_eq_of_lt hc]
  exact ⟨hr, hp, by omega⟩

/-- C3 witness: the window-loss theorem for 3 edges before the read, 2 in
the window, 4 after the reset. -/
theorem C3_window_loss_witness :
    3 < U32MOD ∧ 4 < U32MOD ∧
    (reported 3 2 4 = 3 ∧ postCount 3 2 4 = 4 ∧
     reported 3 2 4 + postCount 3 2 4 + 2 = 3 + 2 + 4) :=
  ⟨by decide, by decide, C3_window_loss 3 2 4 (by decide) (by decide)⟩

/-- C10: a negative inbound `telemetryIntervalMs` value v is stored as
v + 2^32 in the unsigned interval field (−5 becomes 4294967291), while a
negative inbound k-factor is stored as the negative signed value itself;
the unsigned division in the volume computation then sees a divisor of at
least 2^31, so the computed volume is 0 for every pulse count with
`pulseCount * 1000 < 2^31`. -/
theorem C10_negative_config_wrap (s : FlowState) (vI vK : Int) (pc : Nat)
    (hI1 : -2147483648 ≤ vI) (hI2 : vI < 0)
    (hK1 : -2147483648 ≤ vK) (hK2 : vK < 0)
    (hpc : pc * 1000 < I32HALF) :
    ((mqttConfig s { telemetryIntervalMs := some vI, kFactor := none }).telemetryIntervalMs : Int)
      = vI + 4294967296 ∧
    (mqttConfig s { telemetryIntervalMs := some (-5), kFactor := none }).telemetryIntervalMs
      = 4294967291 ∧
    (mqttConfig s { telemetryIntervalMs := none, kFactor := some vK }).kFactor = vK ∧
    (2147483648 : Nat) ≤ toUInt32 vK ∧
    volumeMls pc vK = 0 := by
  refine ⟨?_, ?_, ?_, ?_, ?_⟩
  · simp only [mqttConfig]
    rw [min_eq_left (by simp only [TELEMETRY_INTERVAL_MS_MAX]; omega)]
    simp only [toUInt32, U32MOD]
    omega
  · norm_num [mqttConfig, toUInt32, TELEMETRY_INTERVAL_MS_MAX, U32MOD]
    omega
  · simp only [mqttConfig]
    exact min_eq_left (by simp only [K_FACTOR_MAX]; omega)
  · simp only [toUInt32, U32MOD]
    omega
  · have hge : (2147483648 : Nat) ≤ toUInt32 vK := by
      simp only [toUInt32, U32MOD]
      omega
    have hpc' : pc * 1000 < 2147483648 := by
      simp only [I32HALF] at hpc
      exact hpc
    have hdiv : (pc * 1000 % U32MOD) / toUInt32 vK = 0 := by
      apply Nat.div_eq_of_lt
      have hle : pc * 1000 % U32MOD ≤ pc * 1000 := Nat.mod_le _ _
      omega
    simp only [volumeMls, hdiv]
    decide

/-- C10 witness: the wrap theorem at interval −5, k-factor −1, 49 pulses. -/
theorem C10_negative_config_wrap_witness :
    (-2147483648 : Int) ≤ -5 ∧ (-5 : Int) < 0 ∧
    (-2147483648 : Int) ≤ -1 ∧ (-1 : Int) < 0 ∧
    49 * 1000 < I32HALF ∧
    (((mqttConfig initialState { telemetryIntervalMs := some (-5), kFactor := none }).telemetryIntervalMs : Int)
       = -5 + 4294967296 ∧
     (mqttConfig initialState { telemetryIntervalMs := some (-5), kFactor := none }).telemetryIntervalMs
       = 4294967291 ∧
     (mqttConfig initialState { telemetryIntervalMs := none, kFactor := some (-1) }).kFactor = -1 ∧
     (2147483648 : Nat) ≤ toUInt32 (-1) ∧
     volumeMls 49 (-1) = 0) :=
  ⟨by decide, by decide, by decide, by decide, by decide,
   C10_negative_config_wrap initialState (-5) (-1) 49
     (by decide) (by decide) (by decide) (by decide) (by decide)⟩
